import Mathlib

/-!
Shallow embedding of `beets-plexquery` (src/beetsplug/plexquery.py and
src/beetsplug/utils.py) and verification of the specification's claims.

Python values that flow through the resolution pipeline are modelled by the
inductive `PyObj`; Python exceptions by `PyExc`; the remote Plex server and
the network, an external collaborator, by the record `PlexEnv`, one field per
call the source makes into `plexapi`.  A Python function that may raise is
embedded as a Lean function into `Except PyExc`.

Python's `for a, b in xs` iterates `xs` and tuple-unpacks each element: an
element that is not an iterable of exactly two values raises `TypeError`.
The source iterates this way (without `enumerate`) in
`get_plex_playlist_tracks` and `get_beets_paths_from_tracks`; the embedding
models that unpacking faithfully (`unpack2`).
-/

namespace PlexQuery

/-- A Python value, restricted to the shapes the resolution pipeline touches.
`pyTrack`, `pyMedia`, `pyPart`, `pyPlaylist`, `pySection` model instances of
`plexapi`'s `Track`, `Media`, `MediaPart`, `Playlist` and `LibrarySection`;
their fields model the attributes the source reads (`guid`, `media`,
`parts`, `file`, `items()`, `key`).  A track's `librarySectionID` is carried
in the model although the source never reads it. -/
inductive PyObj where
  | pyStr (s : String)
  | pyInt (n : Int)
  | pyBool (b : Bool)
  | pyNone
  | pyList (xs : List PyObj)
  | pyTuple (xs : List PyObj)
  | pyTrack (guid : String) (librarySectionID : Int) (media : PyObj)
  | pyMedia (parts : PyObj)
  | pyPart (file : PyObj)
  | pyPlaylist (guid : String) (items : PyObj)
  | pySection (key : PyObj)

/-- A raised Python exception.  `utilsNotFound`, `utilsValueError` and
`utilsUnhandledError` are the classes of src/beetsplug/utils.py (subclasses
of `_PlexQueryException`, hence of `Exception`); `plexNotFound` is
`plexapi.exceptions.NotFound`; `typeError` and `otherError` model built-in
`TypeError` / `AttributeError` and any other `Exception` subclass.  Every
constructor models a class deriving from Python's `Exception`, so a bare
`except Exception` handler catches all of them. -/
inductive PyExc where
  | utilsNotFound (msg : String)
  | utilsValueError (msg : String)
  | utilsUnhandledError (msg : String)
  | plexNotFound (msg : String)
  | typeError (msg : String)
  | otherError (msg : String)
deriving DecidableEq, Repr

/-- `str(e)` for the modelled exceptions: the message they carry. -/
def excMsg : PyExc → String
  | .utilsNotFound m => m
  | .utilsValueError m => m
  | .utilsUnhandledError m => m
  | .plexNotFound m => m
  | .typeError m => m
  | .otherError m => m

/-- The remote server collaborator (`plexapi`), one field per call the source
makes: `PlexServer(...)` construction, `plex.library.section(name)`,
`plex.playlists(playlistType="audio", sectionId=key, sort="title:asc")`, and
`plex.playlist(name)`.  Each may return a value or raise. -/
structure PlexEnv where
  serverConnect : Except PyExc Unit
  librarySection : String → Except PyExc PyObj
  serverPlaylists : Int → Except PyExc PyObj
  serverPlaylist : String → Except PyExc PyObj

/-- The configuration values `PlexPlaylistItemQuery.__init__` reads from
`beets.config`: the library name, the beets directory and the plexquery
`plex_dir`. -/
structure PlexConfig where
  library_name : String
  directory : String
  plex_dir : String

/-- Python `str(obj)` as interpolated into the source's f-string messages.
Scalars are rendered as Python renders them; the rendering of containers and
`plexapi` objects is modelled shallowly (no verified property depends on the
exact text a container renders to). -/
def pyStrOf : PyObj → String
  | .pyStr s => s
  | .pyInt n => toString n
  | .pyBool b => if b then "True" else "False"
  | .pyNone => "None"
  | .pyList _ => "[...]"
  | .pyTuple _ => "(...)"
  | .pyTrack g _ _ => s!"<Track {g}>"
  | .pyMedia _ => "<Media>"
  | .pyPart _ => "<MediaPart>"
  | .pyPlaylist g _ => s!"<Playlist {g}>"
  | .pySection _ => "<LibrarySection>"

/-- Python iteration: lists and tuples yield their elements, a string yields
its characters as one-character strings, everything else raises `TypeError`. -/
def pyIter : PyObj → Option (List PyObj)
  | .pyList xs => some xs
  | .pyTuple xs => some xs
  | .pyStr s => some (s.toList.map fun c => .pyStr (String.mk [c]))
  | _ => none

/-- Tuple-unpacking `a, b = obj`: succeeds exactly when `obj` iterates to two
values.  A `plexapi` `Track` (or any other non-iterable) raises `TypeError`. -/
def unpack2 (o : PyObj) : Option (PyObj × PyObj) :=
  match pyIter o with
  | some [a, b] => some (a, b)
  | _ => none

/-- The `TypeError` message raised by failed tuple-unpacking (model text). -/
def unpackErrMsg : String := "cannot unpack non-iterable object"

/-- `isinstance(o, Track)`. -/
def isTrack : PyObj → Bool
  | .pyTrack _ _ _ => true
  | _ => false

/-- `isinstance(o, Playlist)`. -/
def isPlaylist : PyObj → Bool
  | .pyPlaylist _ _ => true
  | _ => false

/-- `playlist.items()` for a validated playlist (the source only calls it on
values that passed `isinstance(_, Playlist)`). -/
def attrItems : PyObj → PyObj
  | .pyPlaylist _ its => its
  | _ => .pyNone

/-- `p.guid` for a validated playlist (the source only reads it on values
that passed `isinstance(_, Playlist)`). -/
def playlistGuid : PyObj → String
  | .pyPlaylist g _ => g
  | _ => ""

/-- `s.startswith(pre)` over character lists. -/
def startsWithL : List Char → List Char → Bool
  | _, [] => true
  | [], _ => false
  | a :: s, b :: pre => (a == b) && startsWithL s pre

/-- `s.startswith(pre)` on strings (Python compares code points, which is
exactly character-list comparison). -/
def pyStartsWith (s pre : String) : Bool :=
  startsWithL s.toList pre.toList

/-- Index of the leftmost occurrence of `pat` in `s`, as `str.find` computes
it; the empty pattern occurs at index 0. -/
def findSub : List Char → List Char → Option Nat
  | _, [] => some 0
  | [], _ => none
  | a :: rest, p :: ps =>
    if startsWithL (a :: rest) (p :: ps) then some 0
    else (findSub rest (p :: ps)).map (· + 1)

/-- Python `s.replace(old, new, 1)`: substitute the leftmost occurrence of
`old` (if any) by `new`, leave `s` unchanged otherwise. -/
def pyReplace1 (s old new : String) : String :=
  match findSub s.toList old.toList with
  | none => s
  | some i =>
    String.mk (s.toList.take i ++ new.toList ++ s.toList.drop (i + old.toList.length))

/-- Python `s.encode("latin-1")`: succeeds iff every code point is at most
U+00FF, yielding one byte per character; otherwise `UnicodeEncodeError`. -/
def latin1Encode (s : String) : Option (List Nat) :=
  if s.toList.all (fun c => c.toNat ≤ 255) then some (s.toList.map Char.toNat)
  else none

/-- Python `bytes.decode("utf-8")` (strict): rejects truncated sequences,
continuation bytes in lead position, overlong encodings, surrogates and code
points above U+10FFFF; otherwise `UnicodeDecodeError`. -/
def utf8Decode : List Nat → Option (List Char)
  | [] => some []
  | b :: bs =>
    if b < 0x80 then (utf8Decode bs).map (Char.ofNat b :: ·)
    else if b < 0xC2 then none
    else if b < 0xE0 then
      match bs with
      | c1 :: bs1 =>
        if 0x80 ≤ c1 && c1 < 0xC0 then
          (utf8Decode bs1).map (Char.ofNat ((b - 0xC0) * 64 + (c1 - 0x80)) :: ·)
        else none
      | [] => none
    else if b < 0xF0 then
      match bs with
      | c1 :: c2 :: bs2 =>
        if (0x80 ≤ c1 && c1 < 0xC0) && (0x80 ≤ c2 && c2 < 0xC0) then
          let cp := (b - 0xE0) * 4096 + (c1 - 0x80) * 64 + (c2 - 0x80)
          if cp < 0x800 || (0xD800 ≤ cp && cp ≤ 0xDFFF) then none
          else (utf8Decode bs2).map (Char.ofNat cp :: ·)
        else none
      | _ => none
    else if b < 0xF5 then
      match bs with
      | c1 :: c2 :: c3 :: bs3 =>
        if ((0x80 ≤ c1 && c1 < 0xC0) && (0x80 ≤ c2 && c2 < 0xC0))
            && (0x80 ≤ c3 && c3 < 0xC0) then
          let cp := (b - 0xF0) * 262144 + (c1 - 0x80) * 4096
                      + (c2 - 0x80) * 64 + (c3 - 0x80)
          if cp < 0x10000 || 0x10FFFF < cp then none
          else (utf8Decode bs3).map (Char.ofNat cp :: ·)
        else none
      | _ => none
    else none

/-- The source's re-decoding step
`path.encode("latin-1").decode("utf-8")` with its `except (UnicodeEncodeError,
UnicodeDecodeError)` fallback to the original string (plexquery.py lines
211-225, applied to the path and to both roots). -/
def latin1Utf8Redecode (s : String) : String :=
  match latin1Encode s with
  | none => s
  | some bytes =>
    match utf8Decode bytes with
    | none => s
    | some cs => String.mk cs

/-- UTF-8 encoding of one character. -/
def utf8EncodeChar (c : Char) : List Nat :=
  let n := c.toNat
  if n < 0x80 then [n]
  else if n < 0x800 then [0xC0 + n / 64, 0x80 + n % 64]
  else if n < 0x10000 then
    [0xE0 + n / 4096, 0x80 + (n / 64) % 64, 0x80 + n % 64]
  else
    [0xF0 + n / 262144, 0x80 + (n / 4096) % 64, 0x80 + (n / 64) % 64, 0x80 + n % 64]

def utf8EncodeList : List Char → List Nat
  | [] => []
  | c :: cs => utf8EncodeChar c ++ utf8EncodeList cs

/-- `beets.util.bytestring_path(path)`: the path as filesystem bytes (UTF-8
encoding of the string). -/
def bytestring_path (s : String) : List Nat :=
  utf8EncodeList s.toList

/-- The translation conditional of plexquery.py lines 227-236, over the
already re-decoded path and roots: if both roots are truthy (non-empty) and
the path starts with the remote root, substitute the leftmost occurrence via
`str.replace(plex_dir, beets_dir, 1)`; otherwise keep the path. -/
def translate_path (decoded_plex_path decoded_plex_dir decoded_beets_dir : String) :
    String :=
  if (decoded_plex_dir != "") && (decoded_beets_dir != "")
      && pyStartsWith decoded_plex_path decoded_plex_dir then
    pyReplace1 decoded_plex_path decoded_plex_dir decoded_beets_dir
  else
    decoded_plex_path

/-- One iteration of the translation loop (plexquery.py lines 207-242):
re-decode the path and both roots, then apply the translation conditional. -/
def plex_path_to_beets_path (plex_path beets_dir plex_dir : String) : String :=
  let decoded_plex_path := latin1Utf8Redecode plex_path
  let decoded_plex_dir := latin1Utf8Redecode plex_dir
  let decoded_beets_dir := latin1Utf8Redecode beets_dir
  translate_path decoded_plex_path decoded_plex_dir decoded_beets_dir

/-- The translation loop: one output path per collected Plex path, in order
(the source appends to `beets_paths`, never deduplicating). -/
def build_beets_paths : List String → String → String → List String
  | [], _, _ => []
  | p :: ps, beets_dir, plex_dir =>
    plex_path_to_beets_path p beets_dir plex_dir ::
      build_beets_paths ps beets_dir plex_dir

/-- plexquery.py line 200: the `.file` validation message. -/
def msgFileInvalid (g ti mi pi_ : String) : String :=
  s!"Track '{g}' track[{ti}].media[{mi}].parts[{pi_}].file is invalid."

/-- plexquery.py line 194: the part validation message. -/
def msgPartInvalid (g ti mi pi_ : String) : String :=
  s!"Track '{g}' track[{ti}].media[{mi}].parts[{pi_}] is invalid."

/-- plexquery.py line 188: the `.parts` validation message. -/
def msgPartsInvalid (g ti mi : String) : String :=
  s!"Track '{g}' track[{ti}].media[{mi}].parts is invalid."

/-- plexquery.py line 182: the media validation message. -/
def msgMediaElemInvalid (g ti mi : String) : String :=
  s!"Track '{g}' track[{ti}].media[{mi}] is invalid."

/-- plexquery.py line 176: the `.media` validation message. -/
def msgMediaInvalid (g ti : String) : String :=
  s!"Track '{g}' track[{ti}].media is invalid."

/-- The `AttributeError` raised by `track.media` on a non-Track value
(model text). -/
def attrMediaErrMsg : String := "object has no attribute media"

/-- The inner loop `for part_index, part in parts:` of
`get_beets_paths_from_tracks` (plexquery.py lines 191-203): tuple-unpack each
element, require a `MediaPart` whose `file` is a `str`, and collect the file. -/
def collect_from_parts (g ti mi : String) : List PyObj → Except PyExc (List String)
  | [] => .ok []
  | ep :: rest =>
    match unpack2 ep with
    | none => .error (.typeError unpackErrMsg)
    | some (pidx, part) =>
      match part with
      | .pyPart file =>
        match file with
        | .pyStr f => (collect_from_parts g ti mi rest).map (f :: ·)
        | _ => .error (.utilsValueError (msgFileInvalid g ti mi (pyStrOf pidx)))
      | _ => .error (.utilsValueError (msgPartInvalid g ti mi (pyStrOf pidx)))

/-- The loop `for media_index, media in medias:` of
`get_beets_paths_from_tracks` (plexquery.py lines 179-203): tuple-unpack each
element, require a `Media` whose `parts` is a `list`, and descend. -/
def collect_from_medias (g ti : String) : List PyObj → Except PyExc (List String)
  | [] => .ok []
  | em :: rest =>
    match unpack2 em with
    | none => .error (.typeError unpackErrMsg)
    | some (midx, media) =>
      match media with
      | .pyMedia parts =>
        match parts with
        | .pyList ps =>
          match collect_from_parts g ti (pyStrOf midx) ps with
          | .error e => .error e
          | .ok fs =>
            match collect_from_medias g ti rest with
            | .error e => .error e
            | .ok fs1 => .ok (fs ++ fs1)
        | _ => .error (.utilsValueError (msgPartsInvalid g ti (pyStrOf midx)))
      | _ => .error (.utilsValueError (msgMediaElemInvalid g ti (pyStrOf midx)))

/-- The outer loop `for track_index, track in tracks:` of
`get_beets_paths_from_tracks` (plexquery.py lines 172-203): tuple-unpack each
element (a genuine `Track` is not iterable, so it raises `TypeError`), read
`track.media` (`AttributeError` on values without the attribute), require it
to be a `list`, and descend, accumulating `plex_paths` in order. -/
def collect_plex_paths : List PyObj → Except PyExc (List String)
  | [] => .ok []
  | et :: rest =>
    match unpack2 et with
    | none => .error (.typeError unpackErrMsg)
    | some (tidx, track) =>
      match track with
      | .pyTrack g _ medias =>
        match medias with
        | .pyList ms =>
          match collect_from_medias g (pyStrOf tidx) ms with
          | .error e => .error e
          | .ok fs =>
            match collect_plex_paths rest with
            | .error e => .error e
            | .ok fs1 => .ok (fs ++ fs1)
        | _ => .error (.utilsValueError (msgMediaInvalid g (pyStrOf tidx)))
      | _ => .error (.otherError attrMediaErrMsg)

/-- `get_beets_paths_from_tracks(tracks, beets_dir, plex_dir, logger)`
(plexquery.py lines 162-244): collect every `part.file` (validating shapes as
the source does), translate each collected path, and return the translated
paths as filesystem byte strings.  The function installs no exception
handler; whatever the loops raise propagates to the caller.  The logger
collaborator only emits debug traces and is not modelled. -/
def get_beets_paths_from_tracks (tracks : List PyObj) (beets_dir plex_dir : String) :
    Except PyExc (List (List Nat)) :=
  match collect_plex_paths tracks with
  | .error e => .error e
  | .ok plex_paths =>
    let beets_paths := build_beets_paths plex_paths beets_dir plex_dir
    .ok (beets_paths.map bytestring_path)

/-- `get_plex_library_section_key(plex, library_name)` (plexquery.py lines
45-70): fetch the section, require a `LibrarySection` whose `key` is an
`int` and not a `bool` (`not isinstance(key, int) or isinstance(key, bool)`
rejects everything but a genuine `int`, since Python's `bool` is an `int`
subclass), and return the key.  Handlers: `plexapi` `NotFound` becomes
`utils.NotFound`, `utils.ValueError` is re-raised, anything else is wrapped
as `utils.UnhandledError`. -/
def get_plex_library_section_key (env : PlexEnv) (library_name : String) :
    Except PyExc Int :=
  let body : Except PyExc Int :=
    match env.librarySection library_name with
    | .error e => .error e
    | .ok sec =>
      match sec with
      | .pySection key =>
        match key with
        | .pyInt n => .ok n
        | _ =>
          let ks := pyStrOf key
          .error (.utilsValueError
            s!"Library '{library_name} section.key '{ks}' is invalid.")
      | _ =>
        .error (.utilsValueError s!"Library '{library_name}' section is invalid.")
  match body with
  | .ok n => .ok n
  | .error (.plexNotFound _) =>
    .error (.utilsNotFound s!"Library '{library_name}' not found.")
  | .error (.utilsValueError m) => .error (.utilsValueError m)
  | .error e =>
    let em := excMsg e
    .error (.utilsUnhandledError
      s!"An unexpected error occurred attempting to access Plex library '{library_name}': {em}")

/-- The loop of `get_plex_playlists` (plexquery.py lines 84-90): every
element of the server's playlist listing must be a `Playlist`. -/
def validate_playlists : List PyObj → Except PyExc (List PyObj)
  | [] => .ok []
  | pl :: rest =>
    match pl with
    | .pyPlaylist _ _ => (validate_playlists rest).map (pl :: ·)
    | _ =>
      .error (.utilsValueError "Playlist from library  server.playlists() is invalid.")

/-- `get_plex_playlists(plex, library_section_key)` (plexquery.py lines
73-97): list the section's audio playlists via the server (the section
scoping is the server's, through the `sectionId` argument) and validate each
element.  Handlers: `utils.ValueError` is re-raised, anything else is wrapped
as `utils.UnhandledError`. -/
def get_plex_playlists (env : PlexEnv) (library_section_key : Int) :
    Except PyExc (List PyObj) :=
  let body : Except PyExc (List PyObj) :=
    match env.serverPlaylists library_section_key with
    | .error e => .error e
    | .ok plsObj =>
      match pyIter plsObj with
      | none => .error (.typeError "object is not iterable")
      | some pls => validate_playlists pls
  match body with
  | .ok v => .ok v
  | .error (.utilsValueError m) => .error (.utilsValueError m)
  | .error e =>
    let em := excMsg e
    .error (.utilsUnhandledError
      s!"An unexpected error occurred attempting to retrieve Playlists: {em}")

/-- `get_plex_playlist(plex, playlist_name, library_section_key)`
(plexquery.py lines 100-125): list the section's playlists, look the named
playlist up on the server (`plexapi` raises `NotFound` when it is absent),
require a `Playlist`, and require its GUID to appear among the section's
playlist GUIDs.  Handlers: `plexapi` `NotFound` becomes `utils.NotFound`,
`utils.ValueError` is re-raised, anything else is wrapped as
`utils.UnhandledError`. -/
def get_plex_playlist (env : PlexEnv) (playlist_name : String)
    (library_section_key : Int) : Except PyExc PyObj :=
  let body : Except PyExc PyObj :=
    match get_plex_playlists env library_section_key with
    | .error e => .error e
    | .ok playlists =>
      let playlists_guids := playlists.map playlistGuid
      match env.serverPlaylist playlist_name with
      | .error e => .error e
      | .ok playlist =>
        match playlist with
        | .pyPlaylist g _ =>
          if playlists_guids.contains g then .ok playlist
          else
            let ks := toString library_section_key
            .error (.utilsValueError
              s!"Playlist '{playlist_name}' (GUID: {g}) is not associated with library section key '{ks}' based on GUID comparison.")
        | _ => .error (.utilsValueError s!"Playlist '{playlist_name}' is invalid.")
  match body with
  | .ok v => .ok v
  | .error (.plexNotFound _) =>
    .error (.utilsNotFound s!"Playlist '{playlist_name}' not found.")
  | .error (.utilsValueError m) => .error (.utilsValueError m)
  | .error e =>
    let em := excMsg e
    .error (.utilsUnhandledError
      s!"An unexpected error occurred attempting to access Playlist '{playlist_name}': {em}")

/-- The loop `for item_index, item in playlist_items:` of
`get_plex_playlist_tracks` (plexquery.py lines 145-150): tuple-unpack each
element of the playlist's item list (a genuine `Track` is not iterable, so
it raises `TypeError`) and require the unpacked value to be a `Track`. -/
def validate_items (playlist_name : String) : List PyObj → Except PyExc (List PyObj)
  | [] => .ok []
  | ei :: rest =>
    match unpack2 ei with
    | none => .error (.typeError unpackErrMsg)
    | some (idx, item) =>
      match item with
      | .pyTrack _ _ _ => (validate_items playlist_name rest).map (item :: ·)
      | _ =>
        let ix := pyStrOf idx
        let it := pyStrOf item
        .error (.utilsValueError
          s!"Playlist '{playlist_name}' playlist.items[{ix}] '{it}' is invalid.")

/-- `get_plex_playlist_tracks(plex, playlist_name, library_section_key)`
(plexquery.py lines 128-159): fetch the playlist, require `playlist.items()`
to be a `list`, and run the item loop.  Handlers: `utils.NotFound` and
`utils.ValueError` are re-raised, anything else is wrapped as
`utils.UnhandledError`. -/
def get_plex_playlist_tracks (env : PlexEnv) (playlist_name : String)
    (library_section_key : Int) : Except PyExc (List PyObj) :=
  let body : Except PyExc (List PyObj) :=
    match get_plex_playlist env playlist_name library_section_key with
    | .error e => .error e
    | .ok playlist =>
      match attrItems playlist with
      | .pyList its => validate_items playlist_name its
      | _ =>
        .error (.utilsValueError
          s!"Playlist '{playlist_name}' playlist.items is invalid.")
  match body with
  | .ok v => .ok v
  | .error (.utilsNotFound m) => .error (.utilsNotFound m)
  | .error (.utilsValueError m) => .error (.utilsValueError m)
  | .error e =>
    let em := excMsg e
    .error (.utilsUnhandledError
      s!"An unexpected error occurred attempting to access Items in Playlist '{playlist_name}': {em}")

/-- The try-block of `PlexPlaylistItemQuery.__init__` (plexquery.py lines
264-288): connect, fetch the section key, fetch the playlist's tracks,
convert them to beets paths.  Any step's exception propagates. -/
def resolve_pipeline (env : PlexEnv) (cfg : PlexConfig) (playlist_name : String) :
    Except PyExc (List (List Nat)) :=
  match env.serverConnect with
  | .error e => .error e
  | .ok _ =>
    match get_plex_library_section_key env cfg.library_name with
    | .error e => .error e
    | .ok key =>
      match get_plex_playlist_tracks env playlist_name key with
      | .error e => .error e
      | .ok tracks => get_beets_paths_from_tracks tracks cfg.directory cfg.plex_dir

/-- `PlexPlaylistItemQuery.__init__` (plexquery.py lines 256-307), modelled
as the final value of `self.track_paths`: it starts empty, is replaced by
the pipeline's result only when the whole pipeline returns, and the handler
chain (`utils.NotFound`, `utils.ValueError`, `utils.UnhandledError`, bare
`Exception`) logs and falls through for every modelled exception — every
`PyExc` constructor models an `Exception` subclass.  `.error` would model an
exception escaping `__init__`. -/
def plexPlaylistItemQuery_init (env : PlexEnv) (cfg : PlexConfig)
    (playlist_name : String) : Except PyExc (List (List Nat)) :=
  let track_paths : List (List Nat) := []
  match resolve_pipeline env cfg playlist_name with
  | .ok ps => .ok ps
  | .error (.utilsNotFound _) => .ok track_paths
  | .error (.utilsValueError _) => .ok track_paths
  | .error (.utilsUnhandledError _) => .ok track_paths
  | .error (.plexNotFound _) => .ok track_paths
  | .error (.typeError _) => .ok track_paths
  | .error (.otherError _) => .ok track_paths

/-- `track.librarySectionID` (the item's reported section; the source never
reads it). -/
def trackSectionID : PyObj → Int
  | .pyTrack _ s _ => s
  | _ => 0

/-- The error kinds of src/beetsplug/utils.py that `get_plex_library_section_key`
may let escape: `NotFound`, `ValueError`, `UnhandledError`. -/
def isTaxonomyErr : PyExc → Bool
  | .utilsNotFound _ => true
  | .utilsValueError _ => true
  | .utilsUnhandledError _ => true
  | _ => false

/-! Concrete fixtures: small environments and track lists used to evaluate
the embedded pipeline at specific inputs. -/

/-- A configuration with library "Music", beets directory `/b`, plex root `/p`. -/
def cfgMusic : PlexConfig := ⟨"Music", "/b", "/p"⟩

/-- A server that is unreachable: constructing `PlexServer` raises. -/
def envDown : PlexEnv where
  serverConnect := .error (.otherError "connection refused")
  librarySection := fun _ => .error (.otherError "connection refused")
  serverPlaylists := fun _ => .error (.otherError "connection refused")
  serverPlaylist := fun _ => .error (.otherError "connection refused")

/-- A playlist whose `items()` holds one malformed member (the integer 7,
not a `Track`). -/
def plMalformed : PyObj := .pyPlaylist "g2" (.pyList [.pyInt 7])

/-- A server returning `plMalformed` for every lookup, section key 1. -/
def envMalformedItem : PlexEnv where
  serverConnect := .ok ()
  librarySection := fun _ => .ok (.pySection (.pyInt 1))
  serverPlaylists := fun _ => .ok (.pyList [plMalformed])
  serverPlaylist := fun _ => .ok plMalformed

/-- A well-formed track in library section 1 with one media, one part,
file `/a.mp3`. -/
def trSection1 : PyObj :=
  .pyTrack "t1" 1 (.pyList [.pyMedia (.pyList [.pyPart (.pyStr "/a.mp3")])])

/-- A well-formed track in library section 2 with one media, one part,
file `/c.mp3`. -/
def trSection2 : PyObj :=
  .pyTrack "t2" 2 (.pyList [.pyMedia (.pyList [.pyPart (.pyStr "/c.mp3")])])

/-- A playlist whose members span library sections 1 and 2. -/
def plSpanning : PyObj := .pyPlaylist "g6" (.pyList [trSection1, trSection2])

/-- A server hosting `plSpanning` under section key 1. -/
def envSpanning : PlexEnv where
  serverConnect := .ok ()
  librarySection := fun _ => .ok (.pySection (.pyInt 1))
  serverPlaylists := fun _ => .ok (.pyList [plSpanning])
  serverPlaylist := fun _ => .ok plSpanning

/-- A server on which the requested playlist is absent: `plex.playlist(name)`
raises `plexapi.exceptions.NotFound`. -/
def envAbsent : PlexEnv where
  serverConnect := .ok ()
  librarySection := fun _ => .ok (.pySection (.pyInt 1))
  serverPlaylists := fun _ => .ok (.pyList [.pyPlaylist "gx" (.pyList [])])
  serverPlaylist := fun _ => .error (.plexNotFound "Unable to find item")

/-- A server whose library section reports the boolean `True` as its key. -/
def envBoolKey : PlexEnv where
  serverConnect := .ok ()
  librarySection := fun _ => .ok (.pySection (.pyBool true))
  serverPlaylists := fun _ => .ok (.pyList [])
  serverPlaylist := fun _ => .error (.plexNotFound "x")

/-- A server hosting one playlist with no items. -/
def plEmpty : PyObj := .pyPlaylist "ge" (.pyList [])

/-- A server on which the requested playlist exists but is empty. -/
def envEmptyPlaylist : PlexEnv where
  serverConnect := .ok ()
  librarySection := fun _ => .ok (.pySection (.pyInt 1))
  serverPlaylists := fun _ => .ok (.pyList [plEmpty])
  serverPlaylist := fun _ => .ok plEmpty

/-- A track list (in the pair shape the source's tuple-unpacking accepts)
whose single track lists the same file `/x.mp3` in two parts. -/
def tracksDup : List PyObj :=
  [.pyTuple [.pyInt 0, .pyTrack "t1" 1 (.pyList
    [.pyTuple [.pyInt 0, .pyMedia (.pyList
      [.pyTuple [.pyInt 0, .pyPart (.pyStr "/x.mp3")],
       .pyTuple [.pyInt 1, .pyPart (.pyStr "/x.mp3")]])]])]]

/-- The filesystem bytes of `/x.mp3`. -/
def xBytes : List Nat := bytestring_path "/x.mp3"

/-- A track list (in the pair shape the source's tuple-unpacking accepts)
whose single track has one part with the empty string as its `file`. -/
def tracksEmptyFile : List PyObj :=
  [.pyTuple [.pyInt 0, .pyTrack "t" 1 (.pyList
    [.pyTuple [.pyInt 0, .pyMedia (.pyList
      [.pyTuple [.pyInt 0, .pyPart (.pyStr "")]])]])]]

/-! Helper lemmas. -/

/-- A pattern that `startsWithL`-matches is found at index 0. -/
lemma findSub_of_startsWith (s pat : List Char) (h : startsWithL s pat = true) :
    findSub s pat = some 0 := by
  match s, pat with
  | s, [] => cases s <;> rfl
  | [], p :: ps => simp [startsWithL] at h
  | a :: rest, p :: ps => simp [findSub, h]

/-- A string with a nonempty character list is not the empty string. -/
lemma string_ne_empty_of_toList {s : String} {c : Char} {cs : List Char}
    (h : s.toList = c :: cs) : s ≠ "" := by
  intro he
  subst he
  simp at h

/-- The character list of a nonempty string is nonempty. -/
lemma toList_ne_nil_of_ne_empty {s : String} (h : s ≠ "") : s.toList ≠ [] := by
  intro hl
  apply h
  cases s with
  | mk data => cases data with
    | nil => rfl
    | cons c cs => simp [String.toList] at hl

/-- Nothing starts with a nonempty pattern out of the empty character list. -/
lemma startsWithL_nil_false {p : Char} {ps : List Char} :
    startsWithL [] (p :: ps) = false := rfl

/-- The translation loop is a `map` of the per-path step. -/
lemma build_beets_paths_eq_map (ps : List String) (bd pd : String) :
    build_beets_paths ps bd pd = ps.map (fun p => plex_path_to_beets_path p bd pd) := by
  induction ps with
  | nil => rfl
  | cons p rest ih => simp [build_beets_paths, ih]

/-- When collection succeeds, `get_beets_paths_from_tracks` returns exactly
the translated collected paths, in order, as byte strings. -/
lemma get_beets_paths_eq_map {tracks : List PyObj} {fs : List String}
    (bd pd : String) (h : collect_plex_paths tracks = .ok fs) :
    get_beets_paths_from_tracks tracks bd pd =
      .ok (fs.map fun p => bytestring_path (plex_path_to_beets_path p bd pd)) := by
  simp [get_beets_paths_from_tracks, h, build_beets_paths_eq_map, List.map_map,
    Function.comp]

/-- The translation conditional maps the empty path to the empty path. -/
lemma translate_path_empty (R L : String) : translate_path "" R L = "" := by
  by_cases hR : R = ""
  · simp [translate_path, hR]
  · have hl : R.toList ≠ [] := toList_ne_nil_of_ne_empty hR
    unfold translate_path pyStartsWith
    cases hc : R.toList with
    | nil => exact absurd hc hl
    | cons c cs => simp [hc, startsWithL]

/-- The items accepted by the item loop are all `Track` instances. -/
lemma validate_items_all_tracks {n : String} {its ts : List PyObj}
    (h : validate_items n its = .ok ts) : ∀ t ∈ ts, isTrack t = true := by
  induction its generalizing ts with
  | nil =>
    simp [validate_items] at h
    subst h
    intro t ht
    simp at ht
  | cons ei rest ih =>
    unfold validate_items at h
    cases hu : unpack2 ei with
    | none => simp [hu] at h
    | some pair =>
      obtain ⟨idx, item⟩ := pair
      rw [hu] at h
      cases item with
      | pyTrack g sid m =>
        cases hr : validate_items n rest with
        | error e => simp [hr, Except.map] at h
        | ok ts' =>
          simp [hr, Except.map] at h
          subst h
          intro t ht
          rcases List.mem_cons.mp ht with h1 | h2
          · subst h1; rfl
          · exact ih hr t h2
      | pyStr s => simp at h
      | pyInt k => simp at h
      | pyBool b => simp at h
      | pyNone => simp at h
      | pyList xs => simp at h
      | pyTuple xs => simp at h
      | pyMedia p => simp at h
      | pyPart f => simp at h
      | pyPlaylist g its2 => simp at h
      | pySection k => simp at h

/-- Tuple-unpacking a genuine `Track` fails, so the collection loop raises
`TypeError` on any list headed by one. -/
lemma collect_plex_paths_cons_track {t : PyObj} (rest : List PyObj)
    (h : isTrack t = true) :
    collect_plex_paths (t :: rest) = .error (.typeError unpackErrMsg) := by
  cases t <;> simp [isTrack] at h
  rfl

/-- On a list of genuine `Track` values the collection loop succeeds only on
the empty list, with no collected paths. -/
lemma collect_plex_paths_all_tracks {tracks : List PyObj} {fs : List String}
    (hall : ∀ t ∈ tracks, isTrack t = true)
    (h : collect_plex_paths tracks = .ok fs) : tracks = [] ∧ fs = [] := by
  cases tracks with
  | nil =>
    simp [collect_plex_paths] at h
    exact ⟨rfl, h⟩
  | cons t rest =>
    rw [collect_plex_paths_cons_track rest (hall t (List.mem_cons_self t rest))] at h
    exact absurd h (by simp)

/-- A listing made of `Playlist` instances passes the playlist validation
loop unchanged. -/
lemma validate_playlists_ok {pls : List PyObj}
    (h : ∀ pl ∈ pls, isPlaylist pl = true) : validate_playlists pls = .ok pls := by
  induction pls with
  | nil => rfl
  | cons pl rest ih =>
    have hpl := h pl (List.mem_cons_self pl rest)
    have hrest : validate_playlists rest = .ok rest :=
      ih fun q hq => h q (List.mem_cons_of_mem pl hq)
    cases pl with
    | pyPlaylist g its => simp [validate_playlists, hrest, Except.map]
    | pyStr s => simp [isPlaylist] at hpl
    | pyInt k => simp [isPlaylist] at hpl
    | pyBool b => simp [isPlaylist] at hpl
    | pyNone => simp [isPlaylist] at hpl
    | pyList xs => simp [isPlaylist] at hpl
    | pyTuple xs => simp [isPlaylist] at hpl
    | pyTrack g sid m => simp [isPlaylist] at hpl
    | pyMedia p => simp [isPlaylist] at hpl
    | pyPart f => simp [isPlaylist] at hpl
    | pySection k => simp [isPlaylist] at hpl

/-- `str.replace(old, new, 1)` on a string that starts with `old` substitutes
exactly the leading occurrence. -/
lemma pyReplace1_of_startsWith {p R : String} (L : String)
    (h : pyStartsWith p R = true) :
    pyReplace1 p R L = String.mk (L.toList ++ p.toList.drop R.toList.length) := by
  unfold pyReplace1
  rw [findSub_of_startsWith _ _ h]
  simp

/-- Tuple-unpacking a genuine `Track` playlist member fails, so the item loop
raises `TypeError` on any item list headed by one. -/
lemma validate_items_cons_track {i : PyObj} (n : String) (rest : List PyObj)
    (h : isTrack i = true) :
    validate_items n (i :: rest) = .error (.typeError unpackErrMsg) := by
  cases i <;> simp [isTrack] at h
  rfl

/-- A section listing of genuine `Playlist` values passes
`get_plex_playlists` unchanged. -/
lemma get_plex_playlists_ok {env : PlexEnv} {k : Int} {pls : List PyObj}
    (h1 : env.serverPlaylists k = .ok (.pyList pls))
    (h2 : ∀ pl ∈ pls, isPlaylist pl = true) :
    get_plex_playlists env k = .ok pls := by
  simp [get_plex_playlists, h1, pyIter, validate_playlists_ok h2]

/-- Inversion of `get_plex_playlist_tracks`: a successful track list comes
from a fetched playlist whose `items()` is a `list` passing the item loop. -/
lemma get_plex_playlist_tracks_ok_inv {env : PlexEnv} {n : String} {k : Int}
    {ts : List PyObj} (h : get_plex_playlist_tracks env n k = .ok ts) :
    ∃ pl its, get_plex_playlist env n k = .ok pl ∧ attrItems pl = .pyList its ∧
      validate_items n its = .ok ts := by
  unfold get_plex_playlist_tracks at h
  cases hpl : get_plex_playlist env n k with
  | error e => rw [hpl] at h; cases e <;> simp at h
  | ok pl =>
    rw [hpl] at h
    simp only at h
    cases hits : attrItems pl with
    | pyList its =>
      rw [hits] at h
      simp only at h
      cases hv : validate_items n its with
      | error e => rw [hv] at h; cases e <;> simp at h
      | ok v =>
        rw [hv] at h
        simp at h
        exact ⟨pl, its, rfl, hits, by rw [hv, h]⟩
    | pyStr s => rw [hits] at h; simp at h
    | pyInt m => rw [hits] at h; simp at h
    | pyBool b => rw [hits] at h; simp at h
    | pyNone => rw [hits] at h; simp at h
    | pyTuple xs => rw [hits] at h; simp at h
    | pyTrack g sid m => rw [hits] at h; simp at h
    | pyMedia p => rw [hits] at h; simp at h
    | pyPart f => rw [hits] at h; simp at h
    | pyPlaylist g its2 => rw [hits] at h; simp at h
    | pySection kk => rw [hits] at h; simp at h

/-! Claim theorems. -/

/-- C4: for every path `p` and non-empty roots `R` (remote) and `L` (local)
such that `p` starts with `R` as a literal prefix, the translation
conditional returns `L + p[len(R):]`: `str.replace(R, L, 1)` substitutes
only the leading occurrence, never a mid-string one. -/
theorem translate_path_replaces_leading_root (p R L : String)
    (hR : R ≠ "") (hL : L ≠ "") (hpre : pyStartsWith p R = true) :
    translate_path p R L = String.mk (L.toList ++ p.toList.drop R.toList.length) := by
  unfold translate_path
  rw [if_pos (by simp [hR, hL, hpre])]
  exact pyReplace1_of_startsWith L hpre

/-- Witness for C4 at a concrete input: `/plex/a.mp3` under roots `/plex`
and `/beets` translates to `/beets/a.mp3`. -/
theorem translate_path_replaces_leading_root_witness :
    translate_path "/plex/a.mp3" "/plex" "/beets" =
      String.mk ("/beets".toList ++ "/plex/a.mp3".toList.drop "/plex".toList.length) :=
  translate_path_replaces_leading_root "/plex/a.mp3" "/plex" "/beets"
    (by decide) (by decide) (by decide)

/-- C5 counterexample: the emitted path is not always byte-identical to the
input path even when a root is empty, because the loop first re-decodes the
path as latin-1 bytes read back as UTF-8.  For the two-character input
`Ã©` (code points U+00C3 U+00A9) with an empty remote root, the loop emits
the one-character path `é`: bytes `[0xC3, 0xA9]`, while the input's bytes
are `[0xC3, 0x83, 0xC2, 0xA9]`. -/
theorem translation_step_redecodes_path :
    bytestring_path (plex_path_to_beets_path "Ã©" "/music" "") = [0xC3, 0xA9] ∧
      bytestring_path "Ã©" = [0xC3, 0x83, 0xC2, 0xA9] ∧
      plex_path_to_beets_path "Ã©" "/music" "" ≠ "Ã©" := by
  refine ⟨rfl, rfl, ?_⟩
  decide

/-- C5 as amended: when either re-decoded root is empty or the re-decoded
path does not start with the re-decoded remote root, the translation
conditional leaves the working path unchanged and never raises — the emitted
path is the latin-1/UTF-8 re-decoding of the input path (byte-identical to
the input exactly when that re-decoding leaves it unchanged, as it does for
every pure-ASCII path). -/
theorem translate_path_keeps_redecoded_path (p bd pd : String)
    (h : latin1Utf8Redecode pd = "" ∨ latin1Utf8Redecode bd = "" ∨
      pyStartsWith (latin1Utf8Redecode p) (latin1Utf8Redecode pd) = false) :
    plex_path_to_beets_path p bd pd = latin1Utf8Redecode p := by
  rcases h with h | h | h
  · simp [plex_path_to_beets_path, translate_path, h]
  · simp [plex_path_to_beets_path, translate_path, h]
  · simp [plex_path_to_beets_path, translate_path, h]

/-- Witness for amended C5 at a concrete input: `/song.mp3` under remote
root `/other` (no prefix match) is emitted unchanged. -/
theorem translate_path_keeps_redecoded_path_witness :
    plex_path_to_beets_path "/song.mp3" "/b" "/other" =
      latin1Utf8Redecode "/song.mp3" :=
  translate_path_keeps_redecoded_path "/song.mp3" "/b" "/other"
    (Or.inr (Or.inr (by decide)))

/-- C7: when the named playlist is absent on the server (the `plexapi`
lookup raises its `NotFound`) and the section's playlist listing is
well-formed, `get_plex_playlist` fails with `utils.NotFound` — not with
`ValueError` and not with `UnhandledError`. -/
theorem absent_playlist_fails_not_found (env : PlexEnv) (name : String)
    (k : Int) (pls : List PyObj) (m : String)
    (h1 : env.serverPlaylists k = .ok (.pyList pls))
    (h2 : ∀ pl ∈ pls, isPlaylist pl = true)
    (h3 : env.serverPlaylist name = .error (.plexNotFound m)) :
    get_plex_playlist env name k = .error (.utilsNotFound s!"Playlist '{name}' not found.") := by
  unfold get_plex_playlist
  rw [get_plex_playlists_ok h1 h2, h3]

/-- Witness for C7 at a concrete server: the absent playlist `Jazz` fails
with `utils.NotFound`. -/
theorem absent_playlist_fails_not_found_witness :
    get_plex_playlist envAbsent "Jazz" 1 =
      .error (.utilsNotFound "Playlist 'Jazz' not found.") :=
  absent_playlist_fails_not_found envAbsent "Jazz" 1 [.pyPlaylist "gx" (.pyList [])]
    "Unable to find item" rfl (by intro pl hpl; simp at hpl; rw [hpl]; rfl) rfl

/-- The per-path translation step maps the empty path to the empty path. -/
lemma plex_path_to_beets_path_empty (bd pd : String) :
    plex_path_to_beets_path "" bd pd = "" := by
  unfold plex_path_to_beets_path
  exact translate_path_empty _ _

/-- C1: constructing the membership query never propagates an exception to
the host: `PlexPlaylistItemQuery.__init__` always completes, and whenever
the resolution pipeline fails — with `utils.NotFound`, `utils.ValueError`,
`utils.UnhandledError`, or any other modelled exception — the handler chain
catches it (logging it) and the query is built over the empty path list. -/
theorem init_never_raises (env : PlexEnv) (cfg : PlexConfig) (pname : String) :
    (∃ ps, plexPlaylistItemQuery_init env cfg pname = .ok ps) ∧
    (∀ e, resolve_pipeline env cfg pname = .error e →
      plexPlaylistItemQuery_init env cfg pname = .ok []) := by
  cases hr : resolve_pipeline env cfg pname with
  | ok ps =>
    refine ⟨⟨ps, by simp [plexPlaylistItemQuery_init, hr]⟩, fun e he => ?_⟩
    exact absurd he (by simp)
  | error e =>
    have hinit : plexPlaylistItemQuery_init env cfg pname = .ok [] := by
      cases e <;> simp [plexPlaylistItemQuery_init, hr]
    exact ⟨⟨[], hinit⟩, fun _ _ => hinit⟩

/-- Witness for C1 at a concrete input: with the server down (the connection
raises), the query is built over the empty path list, not a propagated
exception. -/
theorem init_never_raises_witness :
    plexPlaylistItemQuery_init envDown cfgMusic "Jazz" = .ok [] :=
  (init_never_raises envDown cfgMusic "Jazz").2 (.otherError "connection refused") rfl

/-- C2 (code bug): a malformed playlist member — the integer 7 where a track
belongs — makes resolution fail with `utils.UnhandledError`, not with the
`utils.ValueError` naming the offending path that the validation branch
would raise: the item loop `for item_index, item in playlist_items:` misses
`enumerate`, so tuple-unpacking the member raises `TypeError` before the
`isinstance` validation can run, and the generic handler wraps it. -/
theorem malformed_item_member_yields_unhandled :
    get_plex_playlist_tracks envMalformedItem "P" 1 =
      .error (.utilsUnhandledError
        "An unexpected error occurred attempting to access Items in Playlist 'P': cannot unpack non-iterable object") ∧
    ∀ m, get_plex_playlist_tracks envMalformedItem "P" 1 ≠
      .error (.utilsValueError m) := by
  have h1 : get_plex_playlist_tracks envMalformedItem "P" 1 =
      .error (.utilsUnhandledError
        "An unexpected error occurred attempting to access Items in Playlist 'P': cannot unpack non-iterable object") := rfl
  refine ⟨h1, fun m hm => ?_⟩
  rw [h1] at hm
  simp at hm

/-- C3 counterexample: the resolved path list is not deduplicated — a track
whose parts list the file `/x.mp3` twice resolves to a list containing its
bytes twice. -/
theorem resolved_paths_contain_duplicates :
    get_beets_paths_from_tracks tracksDup "" "" = .ok [xBytes, xBytes] ∧
      ¬ List.Nodup [xBytes, xBytes] := by
  exact ⟨rfl, by simp⟩

/-- C3 as amended: resolution performs no deduplication — whenever the
collection phase succeeds, the returned path list is exactly the translated
collected part files, one output per collected file, in collection order,
duplicates included. -/
theorem beets_paths_are_translated_collection_in_order
    (tracks : List PyObj) (bd pd : String) (res : List (List Nat))
    (h : get_beets_paths_from_tracks tracks bd pd = .ok res) :
    ∃ fs, collect_plex_paths tracks = .ok fs ∧
      res = fs.map fun p => bytestring_path (plex_path_to_beets_path p bd pd) := by
  cases hc : collect_plex_paths tracks with
  | error e =>
    unfold get_beets_paths_from_tracks at h
    rw [hc] at h
    simp at h
  | ok fs =>
    rw [get_beets_paths_eq_map bd pd hc] at h
    simp at h
    exact ⟨fs, rfl, h.symm⟩

/-- Witness for amended C3 at a concrete input: the duplicated-file track
list resolves to the translated collected files in order. -/
theorem beets_paths_are_translated_collection_in_order_witness :
    ∃ fs, collect_plex_paths tracksDup = .ok fs ∧
      [xBytes, xBytes] =
        fs.map fun p => bytestring_path (plex_path_to_beets_path p "" "") :=
  beets_paths_are_translated_collection_in_order tracksDup "" "" [xBytes, xBytes] rfl

/-- C6 counterexample: a playlist whose members span library sections 1 and
2, resolved with section key 1, does not return the section-1 file paths —
resolution fails with `utils.UnhandledError` (the item loop tuple-unpacks
each genuine `Track`, which raises `TypeError`), and no per-item section
filtering is ever reached. -/
theorem spanning_playlist_resolution_fails :
    trackSectionID trSection1 = 1 ∧ trackSectionID trSection2 = 2 ∧
    get_plex_playlist_tracks envSpanning "P" 1 =
      .error (.utilsUnhandledError
        "An unexpected error occurred attempting to access Items in Playlist 'P': cannot unpack non-iterable object") :=
  ⟨rfl, rfl, rfl⟩

/-- C6 as amended: member items are never filtered by their reported section
identifier. The section key only scopes which playlists the lookup accepts
(server-side listing plus GUID comparison). Whenever the named playlist is
found and its `items()` is a non-empty list of genuine `Track` values —
whatever their section identifiers — resolution fails with
`utils.UnhandledError`; and a resolution that does succeed returns the empty
path list. -/
theorem items_never_filtered_by_section (env : PlexEnv) (name : String) (k : Int) :
    (∀ pl its, get_plex_playlist env name k = .ok pl →
      attrItems pl = .pyList its → its ≠ [] → (∀ i ∈ its, isTrack i = true) →
      ∃ m, get_plex_playlist_tracks env name k = .error (.utilsUnhandledError m)) ∧
    (∀ cfg ps, resolve_pipeline env cfg name = .ok ps → ps = []) := by
  constructor
  · intro pl its hpl hits hne hall
    cases its with
    | nil => exact absurd rfl hne
    | cons i rest =>
      have hv := validate_items_cons_track name rest (hall i (List.mem_cons_self i rest))
      refine ⟨s!"An unexpected error occurred attempting to access Items in Playlist '{name}': {unpackErrMsg}", ?_⟩
      unfold get_plex_playlist_tracks
      rw [hpl]
      simp only
      rw [hits]
      simp only
      rw [hv]
      rfl
  · intro cfg ps h
    unfold resolve_pipeline at h
    cases hc : env.serverConnect with
    | error e => rw [hc] at h; simp at h
    | ok u =>
      rw [hc] at h
      simp only at h
      cases hk : get_plex_library_section_key env cfg.library_name with
      | error e => rw [hk] at h; simp at h
      | ok key =>
        rw [hk] at h
        simp only at h
        cases ht : get_plex_playlist_tracks env name key with
        | error e => rw [ht] at h; simp at h
        | ok tracks =>
          rw [ht] at h
          simp only at h
          obtain ⟨pl, its, _, _, hvi⟩ := get_plex_playlist_tracks_ok_inv ht
          have hall := validate_items_all_tracks hvi
          cases hcc : collect_plex_paths tracks with
          | error e =>
            unfold get_beets_paths_from_tracks at h
            rw [hcc] at h
            simp at h
          | ok fs =>
            obtain ⟨htr, hfs⟩ := collect_plex_paths_all_tracks hall hcc
            subst hfs
            rw [get_beets_paths_eq_map cfg.directory cfg.plex_dir hcc] at h
            simp at h
            exact h

/-- Witness for amended C6 at a concrete server: the spanning playlist is
found, its items are genuine tracks, and resolution fails with
`utils.UnhandledError`. -/
theorem items_never_filtered_by_section_witness :
    ∃ m, get_plex_playlist_tracks envSpanning "P" 1 =
      .error (.utilsUnhandledError m) :=
  (items_never_filtered_by_section envSpanning "P" 1).1 plSpanning
    [trSection1, trSection2] rfl rfl (by simp)
    (by
      intro i hi
      rcases List.mem_cons.mp hi with h | h
      · rw [h]; rfl
      · rw [List.mem_singleton.mp h]; rfl)

/-- C8 counterexample: a part whose `file` field is the empty string passes
validation (`isinstance(file, str)` holds) and the empty path appears in the
successfully built path set. -/
theorem empty_file_included_in_paths :
    get_beets_paths_from_tracks tracksEmptyFile "/b" "/p" = .ok [[]] ∧
      ([] : List Nat) ∈ [([] : List Nat)] :=
  ⟨rfl, by simp⟩

/-- C8 as amended: resolution rejects a part's `file` only when it is not a
string; an empty-string `file` is collected and the empty path is a member
of the returned set. -/
theorem empty_file_passes_validation (tracks : List PyObj) (bd pd : String)
    (fs : List String) (res : List (List Nat))
    (hc : collect_plex_paths tracks = .ok fs)
    (h : get_beets_paths_from_tracks tracks bd pd = .ok res)
    (hm : "" ∈ fs) : [] ∈ res := by
  rw [get_beets_paths_eq_map bd pd hc] at h
  simp at h
  rw [← h]
  exact List.mem_map.mpr ⟨"", hm, by rw [plex_path_to_beets_path_empty]; rfl⟩

/-- Witness for amended C8 at a concrete input: the empty collected file
yields the empty path in the result. -/
theorem empty_file_passes_validation_witness :
    ([] : List Nat) ∈ [([] : List Nat)] :=
  empty_file_passes_validation tracksEmptyFile "/b" "/p" [""] [[]] rfl rfl (by simp)

/-- C9: query construction is all-or-nothing — the final `track_paths` is
the complete pipeline result when every step succeeds, and exactly the empty
list otherwise; no partially populated list reaches the base query, because
`self.track_paths` is assigned once, from the whole returned list. -/
theorem init_all_or_nothing (env : PlexEnv) (cfg : PlexConfig) (pname : String)
    (ps : List (List Nat))
    (h : plexPlaylistItemQuery_init env cfg pname = .ok ps) :
    resolve_pipeline env cfg pname = .ok ps ∨ ps = [] := by
  cases hr : resolve_pipeline env cfg pname with
  | ok qs =>
    rw [plexPlaylistItemQuery_init, hr] at h
    simp at h
    exact Or.inl (by rw [h])
  | error e =>
    cases e <;> rw [plexPlaylistItemQuery_init, hr] at h <;> simp at h <;>
      exact Or.inr h

/-- Witness for C9 at a concrete input: the empty playlist resolves fully
and the query holds the complete (empty) pipeline result. -/
theorem init_all_or_nothing_witness :
    resolve_pipeline envEmptyPlaylist cfgMusic "P" = .ok [] ∨
      ([] : List (List Nat)) = [] :=
  init_all_or_nothing envEmptyPlaylist cfgMusic "P" [] rfl

/-- C10: `get_plex_library_section_key` either fails with one of the
taxonomy kinds `utils.NotFound`, `utils.ValueError`, `utils.UnhandledError`
or returns the section key as an integer (the embedding's return type);
in particular a section key reported as a boolean is rejected with
`utils.ValueError` rather than returned, because
`not isinstance(key, int) or isinstance(key, bool)` rejects `bool`
although Python's `bool` is an `int` subclass. -/
theorem section_key_never_bool (env : PlexEnv) (name : String) :
    (∀ e, get_plex_library_section_key env name = .error e →
      isTaxonomyErr e = true) ∧
    (∀ b, env.librarySection name = .ok (.pySection (.pyBool b)) →
      ∃ m, get_plex_library_section_key env name = .error (.utilsValueError m)) := by
  constructor
  · intro e he
    unfold get_plex_library_section_key at he
    cases hs : env.librarySection name with
    | error e0 =>
      rw [hs] at he
      simp only at he
      cases e0 <;> simp at he <;> subst he <;> rfl
    | ok sec =>
      rw [hs] at he
      simp only at he
      cases sec with
      | pySection key => cases key <;> simp at he <;> subst he <;> rfl
      | pyStr s => simp at he; subst he; rfl
      | pyInt n => simp at he; subst he; rfl
      | pyBool b => simp at he; subst he; rfl
      | pyNone => simp at he; subst he; rfl
      | pyList xs => simp at he; subst he; rfl
      | pyTuple xs => simp at he; subst he; rfl
      | pyTrack g sid m => simp at he; subst he; rfl
      | pyMedia p => simp at he; subst he; rfl
      | pyPart f => simp at he; subst he; rfl
      | pyPlaylist g its => simp at he; subst he; rfl
  · intro b hb
    unfold get_plex_library_section_key
    rw [hb]
    exact ⟨_, rfl⟩

/-- Witness for C10 at a concrete server: the section key `True` is rejected
with `utils.ValueError`. -/
theorem section_key_never_bool_witness :
    ∃ m, get_plex_library_section_key envBoolKey "Music" =
      .error (.utilsValueError m) :=
  (section_key_never_bool envBoolKey "Music").2 true rfl

end PlexQuery
